import Mathlib

/-!
# ZenB-3 breathing app — verification of the session store and breath engine

Shallow embedding of the repository's core:
* the zustand session store (`startSession`, `finishSession`, `clearHistory`,
  streak and history computation),
* the breath engine loop of `src/hooks/useBreathEngine.ts` (per-tick progress,
  phase transitions, cue emission, pause/resume and visibility handling),
* the phase machine (`nextPhaseSkipZero`, `isCycleBoundary`, `isPatternValid`),
  whose source file `src/services/phaseMachine.ts` is not part of the provided
  sources and is therefore modelled from the specification.

JavaScript numbers are modelled as `Int` for millisecond timestamps produced by
`Date.now()` (integers in practice) and as `ℚ` for `performance.now()` clock
values and pattern timings.  `Math.floor` on an integer-valued quotient is
`Int.fdiv` (floor division).
-/

namespace ZenB

/-- The four breath phases (`BreathPhase` in `types.ts`). -/
inductive BreathPhase where
  | inhale
  | holdIn
  | exhale
  | holdOut
deriving DecidableEq, Repr

/-- The three selectable patterns (`BreathingType` in `types.ts`). -/
inductive BreathingType where
  | fourSevenEight
  | box
  | calm
deriving DecidableEq, Repr

/-- `ColorTheme` in `types.ts`. -/
inductive ColorTheme where
  | warm
  | cool
  | neutral
deriving DecidableEq, Repr

/-- `QualityTier` in `types.ts`. -/
inductive QualityTier where
  | auto
  | low
  | medium
  | high
deriving DecidableEq, Repr

/-- `Language` in `types.ts`. -/
inductive Language where
  | en
  | vi
deriving DecidableEq, Repr

/-- `SoundPack` in `types.ts`. -/
inductive SoundPack where
  | musical
  | bells
  | breath
  | voiceEn
  | voiceVi
  | voice12
deriving DecidableEq, Repr

/-- Haptic strength choices (`'light' | 'medium' | 'heavy'`). -/
inductive HapticStrength where
  | light
  | medium
  | heavy
deriving DecidableEq, Repr

/-- `UserSettings` in `types.ts`: persisted user settings, including the
streak counter and the last credited ISO date string. -/
structure UserSettings where
  soundEnabled : Bool
  hapticEnabled : Bool
  hapticStrength : HapticStrength
  theme : ColorTheme
  quality : QualityTier
  reduceMotion : Bool
  showTimer : Bool
  language : Language
  soundPack : SoundPack
  streak : Int
  lastBreathDate : String
deriving DecidableEq, Repr

/-- `SessionHistoryItem` in `types.ts`. -/
structure SessionHistoryItem where
  id : String
  timestamp : Int
  durationSec : Int
  patternId : BreathingType
  cycles : Int
deriving DecidableEq, Repr

/-- `BreathPattern` in `types.ts`.  Phase timings in seconds, as a total
function on phases (the TS `Record<BreathPhase, number>`). -/
structure BreathPattern where
  id : BreathingType
  label : String
  tag : String
  description : String
  timings : BreathPhase → ℚ
  colorTheme : ColorTheme
  recommendedCycles : Option Int

/-- The `BREATHING_PATTERNS` table of `types.ts`. -/
def BREATHING_PATTERNS : BreathingType → BreathPattern
  | .fourSevenEight =>
    { id := .fourSevenEight
      label := "Relax"
      tag := "Sleep and Anxiety"
      description := "A natural tranquilizer for the nervous system."
      timings := fun p => match p with
        | .inhale => 4 | .holdIn => 7 | .exhale => 8 | .holdOut => 0
      colorTheme := .warm
      recommendedCycles := some 4 }
  | .box =>
    { id := .box
      label := "Focus"
      tag := "Concentration"
      description := "Used by Navy SEALs to heighten performance."
      timings := fun p => match p with
        | .inhale => 4 | .holdIn => 4 | .exhale => 4 | .holdOut => 4
      colorTheme := .neutral
      recommendedCycles := some 6 }
  | .calm =>
    { id := .calm
      label := "Balance"
      tag := "Coherence"
      description := "Restores balance to your heart rate variability."
      timings := fun p => match p with
        | .inhale => 4 | .holdIn => 0 | .exhale => 6 | .holdOut => 0
      colorTheme := .cool
      recommendedCycles := some 8 }

/-! ## Phase machine

`src/services/phaseMachine.ts` is imported by `useBreathEngine.ts` but its
source is not among the provided files; the three functions below are modelled
from the specification (§4.1). -/

/-- Modelled from the spec: the cyclic phase order
inhale → holdIn → exhale → holdOut → inhale (§3 Phase). -/
def phaseSucc : BreathPhase → BreathPhase
  | .inhale => .holdIn
  | .holdIn => .exhale
  | .exhale => .holdOut
  | .holdOut => .inhale

/-- Modelled from the spec: `isPatternValid(pattern)` — true iff at least one
phase duration is > 0 (§4.1); the source `src/services/phaseMachine.ts` is
missing from the provided files. -/
def isPatternValid (p : BreathPattern) : Bool :=
  decide (0 < p.timings .inhale) || decide (0 < p.timings .holdIn) ||
  decide (0 < p.timings .exhale) || decide (0 < p.timings .holdOut)

/-- Modelled from the spec: `isCycleBoundary(phase)` — true iff the phase is
`inhale` (§4.1); the source `src/services/phaseMachine.ts` is missing from the
provided files. -/
def isCycleBoundary (p : BreathPhase) : Bool :=
  p = .inhale

/-- The four candidate phases after `current`, in cyclic order (the fourth is
`current` itself again, since the cycle has length 4). -/
def phaseCandidates (current : BreathPhase) : List BreathPhase :=
  [phaseSucc current, phaseSucc (phaseSucc current),
   phaseSucc (phaseSucc (phaseSucc current)),
   phaseSucc (phaseSucc (phaseSucc (phaseSucc current)))]

/-- Modelled from the spec: `nextPhase(current, pattern)` — "returns the next
phase in cyclic order whose configured duration is > 0, skipping zero-duration
phases", terminating after at most one full lap, and "fails deterministically
(signals invalid pattern)" — modelled as `none` — "if no phase has positive
duration" (§4.1); the source `src/services/phaseMachine.ts` is missing from
the provided files. -/
def nextPhaseSkipZero (current : BreathPhase) (p : BreathPattern) :
    Option BreathPhase :=
  (phaseCandidates current).find? (fun q => decide (0 < p.timings q))

/-! ## Session store (`src/unnamed/part_001`, zustand store) -/

/-- `SessionStats` in the store file. -/
structure SessionStats where
  durationSec : Int
  cyclesCompleted : Int
  patternLabel : String
  patternId : BreathingType
deriving DecidableEq, Repr

/-- The store state (`BreathState` in the store file): session state, UI
state, and persisted settings/history. -/
structure BreathState where
  isActive : Bool
  isPaused : Bool
  currentPattern : BreathPattern
  phase : BreathPhase
  cycleCount : Int
  sessionStartTime : Int
  showSummary : Bool
  lastSessionStats : Option SessionStats
  hasSeenOnboarding : Bool
  userSettings : UserSettings
  history : List SessionHistoryItem

/-- The store's initial state (the object literal passed to `create`). -/
def initialBreathState : BreathState :=
  { isActive := false
    isPaused := false
    currentPattern := BREATHING_PATTERNS .fourSevenEight
    phase := .inhale
    cycleCount := 0
    sessionStartTime := 0
    showSummary := false
    lastSessionStats := none
    hasSeenOnboarding := false
    userSettings :=
      { soundEnabled := true
        hapticEnabled := true
        hapticStrength := .medium
        theme := .neutral
        quality := .auto
        reduceMotion := false
        showTimer := true
        language := .en
        soundPack := .musical
        streak := 0
        lastBreathDate := "" }
    history := [] }

/-- `startSession(type)`: zustand `set` merges the given fields into the
state, leaving all others (history, settings, onboarding flag, last stats)
unchanged.  `Date.now()` is passed in as `now`. -/
def startSession (s : BreathState) (type : BreathingType) (now : Int) :
    BreathState :=
  { s with
    isActive := true
    isPaused := false
    currentPattern := BREATHING_PATTERNS type
    phase := .inhale
    cycleCount := 0
    sessionStartTime := now
    showSummary := false }

/-- `stopSession()`. -/
def stopSession (s : BreathState) : BreathState :=
  { s with
    isActive := false
    isPaused := false
    cycleCount := 0
    phase := .inhale
    sessionStartTime := 0 }

/-- `Math.floor((Date.now() - state.sessionStartTime) / 1000)` — both operands
are integer milliseconds, so `Math.floor` of the quotient is floor division. -/
def sessionDuration (s : BreathState) (now : Int) : Int :=
  (now - s.sessionStartTime).fdiv 1000

/-- The `newItem` history record built inside `finishSession` (the random id
suffix is passed in as part of `newId`). -/
def finishedItem (s : BreathState) (now : Int) (newId : String) :
    SessionHistoryItem :=
  { id := newId
    timestamp := now
    durationSec := sessionDuration s now
    patternId := s.currentPattern.id
    cycles := s.cycleCount }

/-- `finishSession()` from the store.  Sources of ambient nondeterminism are
passed as arguments: `now` is `Date.now()`, `newId` the generated random id,
`today`/`yesterday` the results of `getTodayString()`/`getYesterdayString()`.
Faithful to the source: there is no `isActive` guard and no flooring of a
negative duration; history is prepended and `slice(0, 100)`-truncated only
when `durationSec > 10`; the streak decision table runs only when
`durationSec > 30`. -/
def finishSession (s : BreathState) (now : Int) (newId : String)
    (today yesterday : String) : BreathState :=
  let durationSec : Int := sessionDuration s now
  let newHistory : List SessionHistoryItem :=
    if 10 < durationSec then
      (finishedItem s now newId :: s.history).take 100
    else s.history
  let streakPair : Int × String :=
    if 30 < durationSec then
      if s.userSettings.lastBreathDate = today then
        (s.userSettings.streak, s.userSettings.lastBreathDate)
      else if s.userSettings.lastBreathDate = yesterday then
        (s.userSettings.streak + 1, today)
      else
        (1, today)
    else (s.userSettings.streak, s.userSettings.lastBreathDate)
  { s with
    isActive := false
    isPaused := false
    sessionStartTime := 0
    showSummary := true
    history := newHistory
    userSettings :=
      { s.userSettings with
        streak := streakPair.1
        lastBreathDate := streakPair.2 }
    lastSessionStats := some
      { durationSec := durationSec
        cyclesCompleted := s.cycleCount
        patternLabel := s.currentPattern.label
        patternId := s.currentPattern.id } }

/-- `togglePause()`. -/
def togglePause (s : BreathState) : BreathState :=
  { s with isPaused := !s.isPaused }

/-- `setPhase(phase)`. -/
def setPhase (s : BreathState) (phase : BreathPhase) : BreathState :=
  { s with phase := phase }

/-- `incrementCycle()`. -/
def incrementCycle (s : BreathState) : BreathState :=
  { s with cycleCount := s.cycleCount + 1 }

/-- `clearHistory()`. -/
def clearHistory (s : BreathState) : BreathState :=
  { s with history := [] }

/-! ## Breath engine (`src/hooks/useBreathEngine.ts`)

The hook's mutable refs become an explicit record; `performance.now()` values
are passed in as `ℚ` milliseconds.  Observable side effects of a tick (store
mutations and cue emission) are recorded as an ordered event list. -/

/-- Observable events produced while handling one animation-frame tick, in
program order: the transition decision `nextPhaseSkipZero` (line 98 of the
hook), the `incrementCycle()` store call, the `setPhase(next)` store call, and
the fire-and-forget cue emission `triggerCuesForPhase(next, nextDuration)`. -/
inductive Event where
  | transition (next : BreathPhase)
  | incCycle
  | phaseSet (next : BreathPhase)
  | cue (phase : BreathPhase) (duration : ℚ)
deriving DecidableEq, Repr

/-- Whether an event is a cue emission. -/
def Event.isCue : Event → Bool
  | .cue _ _ => true
  | _ => false

/-- The state read and written by one execution of `loop`: the store's
`phase`/`cycleCount` (via the selector and the `setPhase`/`incrementCycle`
callbacks) together with the hook's `startTimeRef`, `progressRef`, and whether
an animation frame remains scheduled (`rafIdRef ≠ null`). -/
structure TickState where
  phase : BreathPhase
  cycleCount : Int
  startTime : ℚ
  progress : ℚ
  running : Bool
deriving Repr

/-- The per-tick progress formula of lines 91–94 of the hook:
`Math.max(0, Math.min(elapsedSec / Math.max(duration, 1e-6), 1))` with
`elapsedSec = (now - startTimeRef.current) / 1000`. -/
def progressAt (pat : BreathPattern) (phase : BreathPhase)
    (startTime now : ℚ) : ℚ :=
  max 0 (min (((now - startTime) / 1000) / max (pat.timings phase) (1 / 1000000)) 1)

/-- One execution of `loop(now)` (lines 81–120 of the hook).  The fail-safe
zeroes progress and cancels the frame when the pattern is invalid; otherwise
progress is clamped into [0,1]; when the phase duration has elapsed the phase
advances, the cycle counter is bumped at a cycle boundary, the clock resets and
a cue fires for the new phase.  The fresh `performance.now()` read at line 108
is identified with the tick timestamp `now`.  The inner `none` branch is
unreachable because the fail-safe has already established pattern validity; it
is modelled as halting like the fail-safe. -/
def loopTick (pat : BreathPattern) (s : TickState) (now : ℚ) :
    TickState × List Event :=
  if isPatternValid pat = false then
    ({ s with progress := 0, running := false }, [])
  else
    let duration := pat.timings s.phase
    let elapsedSec := (now - s.startTime) / 1000
    let prog := progressAt pat s.phase s.startTime now
    if duration ≤ elapsedSec then
      match nextPhaseSkipZero s.phase pat with
      | some next =>
          ({ s with
              phase := next
              cycleCount := s.cycleCount + (if isCycleBoundary next then 1 else 0)
              startTime := now
              progress := 0
              running := true },
           [Event.transition next]
             ++ (if isCycleBoundary next then [Event.incCycle] else [])
             ++ [Event.phaseSet next, Event.cue next (pat.timings next)])
      | none => ({ s with progress := prog, running := false }, [])
    else
      ({ s with progress := prog, running := true }, [])

/-- The hook's mutable refs: `startTimeRef`, `pausedAtRef`, `progressRef`,
`wasHiddenRef`, and whether an animation frame is scheduled (`rafIdRef`). -/
structure EngineRefs where
  startTime : ℚ
  pausedAt : ℚ
  progress : ℚ
  wasHidden : Bool
  rafActive : Bool
deriving DecidableEq, Repr

/-- The `document.hidden` branch of the visibility handler `onVis` (lines
63–66): record the hide time, set the was-hidden flag, cancel the frame. -/
def onVisHidden (r : EngineRefs) (now : ℚ) : EngineRefs :=
  { r with wasHidden := true, pausedAt := now, rafActive := false }

/-- The visible branch of `onVis` (lines 67–75): if the tab was hidden and the
session is still active and not paused, perform a soft resume — reset the
phase clock to `now`, zero progress, clear the flag and reschedule the loop;
otherwise do nothing. -/
def onVisVisible (r : EngineRefs) (isActive isPaused : Bool) (now : ℚ) :
    EngineRefs :=
  if r.wasHidden && isActive && !isPaused then
    { r with wasHidden := false, startTime := now, progress := 0,
             rafActive := true }
  else r

/-- The main lifecycle effect of the hook (lines 123–158), run when
`isActive`/`isPaused` (or phase/pattern) change, with `performance.now()`
passed as `now`.  Inactive: cancel the frame and zero the clock refs.  Paused:
record the pause time and cancel the frame.  Running with a recorded pause:
shift `startTimeRef` forward by the pause duration.  Otherwise: brand-new
phase start (this branch also fires the initial cue for the current phase,
not modelled as an event here). -/
def mainEffect (r : EngineRefs) (isActive isPaused : Bool) (now : ℚ) :
    EngineRefs :=
  if isActive = false then
    { r with rafActive := false, progress := 0, startTime := 0, pausedAt := 0 }
  else if isPaused then
    { r with pausedAt := now, rafActive := false }
  else if 0 < r.pausedAt ∧ 0 < r.startTime then
    { r with startTime := r.startTime + (now - r.pausedAt), pausedAt := 0,
             rafActive := true }
  else
    { r with startTime := now, progress := 0, rafActive := true }

/-! ## Theorems -/

/-- A store state with a session 35 s old (used for concrete instantiation). -/
def wState : BreathState :=
  { initialBreathState with isActive := true, sessionStartTime := 1000 }

/-- C10: `startSession(type)` activates the session with phase `inhale`, zero
cycles, `sessionStartTime = now` and the summary closed, for every prior store
state, while history, user settings (hence the streak) and the onboarding flag
are untouched; the starting phase is unconditionally `inhale`. -/
theorem startSession_spec (s : BreathState) (bt : BreathingType) (now : Int) :
    (startSession s bt now).isActive = true ∧
    (startSession s bt now).isPaused = false ∧
    (startSession s bt now).phase = BreathPhase.inhale ∧
    (startSession s bt now).cycleCount = 0 ∧
    (startSession s bt now).sessionStartTime = now ∧
    (startSession s bt now).showSummary = false ∧
    (startSession s bt now).currentPattern = BREATHING_PATTERNS bt ∧
    (startSession s bt now).history = s.history ∧
    (startSession s bt now).userSettings = s.userSettings ∧
    (startSession s bt now).hasSeenOnboarding = s.hasSeenOnboarding :=
  ⟨rfl, rfl, rfl, rfl, rfl, rfl, rfl, rfl, rfl, rfl⟩

/-- C1: `finishSession` has no `isActive` guard and no floor-at-0 on the
computed duration.  On the store's initial state (`isActive = false`,
`sessionStartTime = 0`) at a realistic `Date.now()`, the computed duration is
a huge positive garbage value, so a history item IS appended and the streak IS
set — not a state-wise no-op; and with `sessionStartTime` in the future the
recorded duration is negative, so no flooring happens either. -/
theorem finishSession_inactive_not_noop :
    initialBreathState.isActive = false ∧
    (finishSession initialBreathState 1760140800000 "id" "2025-10-11"
        "2025-10-10").history.length = 1 ∧
    (finishSession initialBreathState 1760140800000 "id" "2025-10-11"
        "2025-10-10").userSettings.streak = 1 ∧
    (finishSession initialBreathState 1760140800000 "id" "2025-10-11"
        "2025-10-10").userSettings.lastBreathDate = "2025-10-11" ∧
    (finishSession { initialBreathState with sessionStartTime := 5000 } 0
        "id" "2025-10-11" "2025-10-10").lastSessionStats.map
        SessionStats.durationSec = some (-5) := by
  refine ⟨rfl, ?_, ?_, ?_, ?_⟩ <;> decide

/-- C2: on `finishSession`, the streak decision table runs exactly when the
computed duration exceeds 30 s: last-credited date equal to today keeps streak
and date; equal to yesterday increments the streak and credits today; anything
else resets the streak to 1 and credits today; durations of 30 s or less leave
both fields unchanged. -/
theorem finishSession_streak_table (s : BreathState) (now : Int)
    (newId today yesterday : String) :
    (sessionDuration s now ≤ 30 →
      (finishSession s now newId today yesterday).userSettings.streak
          = s.userSettings.streak ∧
      (finishSession s now newId today yesterday).userSettings.lastBreathDate
          = s.userSettings.lastBreathDate) ∧
    (30 < sessionDuration s now →
      (s.userSettings.lastBreathDate = today →
        (finishSession s now newId today yesterday).userSettings.streak
            = s.userSettings.streak ∧
        (finishSession s now newId today yesterday).userSettings.lastBreathDate
            = s.userSettings.lastBreathDate) ∧
      (s.userSettings.lastBreathDate ≠ today →
        s.userSettings.lastBreathDate = yesterday →
        (finishSession s now newId today yesterday).userSettings.streak
            = s.userSettings.streak + 1 ∧
        (finishSession s now newId today yesterday).userSettings.lastBreathDate
            = today) ∧
      (s.userSettings.lastBreathDate ≠ today →
        s.userSettings.lastBreathDate ≠ yesterday →
        (finishSession s now newId today yesterday).userSettings.streak = 1 ∧
        (finishSession s now newId today yesterday).userSettings.lastBreathDate
            = today)) := by
  constructor
  · intro h
    have h' : ¬ 30 < sessionDuration s now := not_lt.mpr h
    simp [finishSession, h']
  · intro h
    refine ⟨fun ht => ?_, fun ht hy => ?_, fun ht hy => ?_⟩
    · simp [finishSession, h, ht]
    · simp only [finishSession]
      rw [if_pos h, if_neg ht, if_pos hy]
      exact ⟨rfl, rfl⟩
    · simp only [finishSession]
      rw [if_pos h, if_neg ht, if_neg hy]
      exact ⟨rfl, rfl⟩

/-- C2 witness: a 35 s session finishing on 2025-10-11 with no prior streak
(`lastBreathDate = ""`) sets the streak to 1 and credits today. -/
theorem finishSession_streak_table_witness :
    (finishSession wState 36000 "w" "2025-10-11" "2025-10-10").userSettings.streak
        = 1 ∧
    (finishSession wState 36000 "w" "2025-10-11"
        "2025-10-10").userSettings.lastBreathDate = "2025-10-11" :=
  ((finishSession_streak_table wState 36000 "w" "2025-10-11" "2025-10-10").2
      (by decide)).2.2 (by decide) (by decide)

/-- C3: on `finishSession`, exactly one history item is prepended iff the
computed duration exceeds 10 s; the result is the new item consed onto the old
list, truncated to 100 entries (so its head is the new item, its length is
capped at 100, and when the old list already held 100 entries only the oldest
is evicted); `clearHistory` empties the list. -/
theorem finishSession_history_spec (s : BreathState) (now : Int)
    (newId today yesterday : String) :
    (sessionDuration s now ≤ 10 →
      (finishSession s now newId today yesterday).history = s.history) ∧
    (10 < sessionDuration s now →
      (finishSession s now newId today yesterday).history
          = (finishedItem s now newId :: s.history).take 100 ∧
      (finishSession s now newId today yesterday).history.head?
          = some (finishedItem s now newId) ∧
      (finishSession s now newId today yesterday).history.length
          = min 100 (s.history.length + 1) ∧
      (s.history.length = 100 →
        (finishSession s now newId today yesterday).history
            = finishedItem s now newId :: s.history.dropLast)) ∧
    (clearHistory s).history = [] := by
  refine ⟨fun h => ?_, fun h => ?_, rfl⟩
  · have h' : ¬ 10 < sessionDuration s now := not_lt.mpr h
    simp [finishSession, h']
  · have hh : (finishSession s now newId today yesterday).history
        = (finishedItem s now newId :: s.history).take 100 := by
      simp [finishSession, h]
    refine ⟨hh, ?_, ?_, ?_⟩
    · rw [hh]
      rfl
    · rw [hh, List.length_take]
      simp
    · intro hlen
      rw [hh, List.take_succ_cons, List.dropLast_eq_take, hlen]

/-- Every phase occurs among the four cyclic candidates after `c`. -/
theorem mem_phaseCandidates (c q : BreathPhase) : q ∈ phaseCandidates c := by
  cases c <;> cases q <;> decide

/-- C4: `nextPhaseSkipZero` finds the next phase in cyclic order with strictly
positive duration, skipping the zero-duration candidates before it; when some
phase is positive it always succeeds (in particular, when only the current
phase is positive it wraps all the way around and returns that same phase);
when no phase has positive duration it signals an invalid pattern (`none`). -/
theorem nextPhaseSkipZero_spec (p : BreathPattern) (c : BreathPhase) :
    ((∀ q, p.timings q ≤ 0) → nextPhaseSkipZero c p = none) ∧
    ((∃ q, 0 < p.timings q) →
      ∃ q, nextPhaseSkipZero c p = some q ∧ 0 < p.timings q ∧
        ∃ l₁ l₂, phaseCandidates c = l₁ ++ q :: l₂ ∧
          ∀ r ∈ l₁, p.timings r ≤ 0) ∧
    (0 < p.timings c → (∀ q, q ≠ c → p.timings q ≤ 0) →
      nextPhaseSkipZero c p = some c) := by
  have key : (∃ q, 0 < p.timings q) →
      ∃ q, nextPhaseSkipZero c p = some q ∧ 0 < p.timings q ∧
        ∃ l₁ l₂, phaseCandidates c = l₁ ++ q :: l₂ ∧
          ∀ r ∈ l₁, p.timings r ≤ 0 := by
    rintro ⟨q0, hq0⟩
    obtain ⟨q, hq⟩ : ∃ q, nextPhaseSkipZero c p = some q := by
      rcases hfind : nextPhaseSkipZero c p with _ | q
      · exfalso
        have := (List.find?_eq_none.mp hfind) q0 (mem_phaseCandidates c q0)
        simp only [decide_eq_true_eq] at this
        exact this hq0
      · exact ⟨q, rfl⟩
    obtain ⟨hpq, l₁, l₂, hsplit, hpre⟩ := List.find?_eq_some.mp hq
    refine ⟨q, hq, by simpa using hpq, l₁, l₂, hsplit, fun r hr => ?_⟩
    have := hpre r hr
    simp only [Bool.not_eq_eq_eq_not, Bool.not_true, decide_eq_false_iff_not,
      not_lt] at this
    exact this
  refine ⟨fun h => ?_, key, fun hc hothers => ?_⟩
  · rw [nextPhaseSkipZero, List.find?_eq_none]
    intro x _
    simp only [decide_eq_true_eq, not_lt]
    exact h x
  · obtain ⟨q, hq, hpos, -⟩ := key ⟨c, hc⟩
    have : q = c := by
      by_contra hne
      exact absurd hpos (not_lt.mpr (hothers q hne))
    rwa [this] at hq

/-- C4 witness: for the 4-7-8 pattern, from `exhale` the next phase skips the
zero-duration `holdOut` and is `inhale`. -/
theorem nextPhaseSkipZero_spec_witness :
    ∃ q, nextPhaseSkipZero BreathPhase.exhale
        (BREATHING_PATTERNS .fourSevenEight) = some q ∧
      0 < (BREATHING_PATTERNS .fourSevenEight).timings q ∧
      ∃ l₁ l₂, phaseCandidates BreathPhase.exhale = l₁ ++ q :: l₂ ∧
        ∀ r ∈ l₁, (BREATHING_PATTERNS .fourSevenEight).timings r ≤ 0 :=
  (nextPhaseSkipZero_spec (BREATHING_PATTERNS .fourSevenEight)
      BreathPhase.exhale).2.1 ⟨BreathPhase.inhale, by norm_num [BREATHING_PATTERNS]⟩

/-- The progress clamp is never negative. -/
theorem progressAt_nonneg (pat : BreathPattern) (ph : BreathPhase)
    (startTime now : ℚ) : 0 ≤ progressAt pat ph startTime now :=
  le_max_left 0 _

/-- The progress clamp never exceeds 1. -/
theorem progressAt_le_one (pat : BreathPattern) (ph : BreathPhase)
    (startTime now : ℚ) : progressAt pat ph startTime now ≤ 1 :=
  max_le zero_le_one (min_le_right _ _)

/-- Evaluation of one tick that crosses a phase boundary: the transition is
taken, the cycle counter bumps exactly at a cycle boundary, the clock resets,
and the event trace is `transition`, conditional `incCycle`, `phaseSet`, then
`cue` — in program order. -/
theorem loopTick_transition (pat : BreathPattern) (ts : TickState) (now : ℚ)
    (next : BreathPhase)
    (hv : isPatternValid pat = true)
    (he : pat.timings ts.phase ≤ (now - ts.startTime) / 1000)
    (hn : nextPhaseSkipZero ts.phase pat = some next) :
    loopTick pat ts now =
      ({ ts with
          phase := next
          cycleCount := ts.cycleCount + (if isCycleBoundary next then 1 else 0)
          startTime := now
          progress := 0
          running := true },
       [Event.transition next]
         ++ (if isCycleBoundary next then [Event.incCycle] else [])
         ++ [Event.phaseSet next, Event.cue next (pat.timings next)]) := by
  simp [loopTick, hv, he, hn]

/-- C5: the cycle count starts at 0 on `startSession`; a session finished
without any boundary tick reports 0 completed cycles; a tick transitioning
into `inhale` increments the count by exactly 1 (emitting exactly one
`incCycle` event), a tick transitioning into any other phase leaves it
unchanged (no `incCycle` event), and a tick that crosses no boundary changes
nothing and emits nothing. -/
theorem cycle_increment_spec (s : BreathState) (bt : BreathingType)
    (n0 n1 : Int) (nid today yd : String) (pat : BreathPattern)
    (ts : TickState) (now : ℚ) (next : BreathPhase) :
    (startSession s bt n0).cycleCount = 0 ∧
    (finishSession (startSession s bt n0) n1 nid today yd).lastSessionStats.map
        SessionStats.cyclesCompleted = some 0 ∧
    (isPatternValid pat = true →
      pat.timings ts.phase ≤ (now - ts.startTime) / 1000 →
      nextPhaseSkipZero ts.phase pat = some next →
      ((next = BreathPhase.inhale →
          (loopTick pat ts now).1.cycleCount = ts.cycleCount + 1 ∧
          (loopTick pat ts now).2.count Event.incCycle = 1) ∧
       (next ≠ BreathPhase.inhale →
          (loopTick pat ts now).1.cycleCount = ts.cycleCount ∧
          (loopTick pat ts now).2.count Event.incCycle = 0))) ∧
    ((now - ts.startTime) / 1000 < pat.timings ts.phase →
      (loopTick pat ts now).1.cycleCount = ts.cycleCount ∧
      (loopTick pat ts now).2 = []) := by
  refine ⟨rfl, by simp [finishSession, startSession], fun hv he hn => ?_, fun hlt => ?_⟩
  · rw [loopTick_transition pat ts now next hv he hn]
    constructor
    · intro hinh
      subst hinh
      simp [isCycleBoundary, List.count_cons]
    · intro hninh
      have hb : isCycleBoundary next = false := by
        simpa [isCycleBoundary] using hninh
      simp [hb, List.count_cons]
  · rcases hval : isPatternValid pat with _ | _
    · simp [loopTick, hval]
    · simp [loopTick, hval, not_le.mpr hlt]

/-- C6: a boundary-crossing tick produces the event trace in the fixed
program order — the transition decision, then the conditional cycle
increment, then the observable phase change, then the cue — with exactly one
cue, emitted for the new phase with its configured duration, and the phase
change strictly precedes the cue. -/
theorem tick_event_order (pat : BreathPattern) (ts : TickState) (now : ℚ)
    (next : BreathPhase)
    (hv : isPatternValid pat = true)
    (he : pat.timings ts.phase ≤ (now - ts.startTime) / 1000)
    (hn : nextPhaseSkipZero ts.phase pat = some next) :
    (loopTick pat ts now).2 =
      [Event.transition next]
        ++ (if isCycleBoundary next then [Event.incCycle] else [])
        ++ [Event.phaseSet next, Event.cue next (pat.timings next)] ∧
    (loopTick pat ts now).2.filter Event.isCue
        = [Event.cue next (pat.timings next)] ∧
    (loopTick pat ts now).1.phase = next ∧
    ∃ l₁ l₂, (loopTick pat ts now).2
        = l₁ ++ Event.phaseSet next :: l₂ ++ [Event.cue next (pat.timings next)] ∧
      ∀ e ∈ l₁, e.isCue = false := by
  rw [loopTick_transition pat ts now next hv he hn]
  rcases hb : isCycleBoundary next with _ | _
  · refine ⟨by simp [hb], by simp [hb, Event.isCue], rfl,
      [Event.transition next], [], by simp [hb], ?_⟩
    intro e he'
    simp only [List.mem_singleton] at he'
    subst he'
    rfl
  · refine ⟨by simp [hb], by simp [hb, Event.isCue], rfl,
      [Event.transition next, Event.incCycle], [], by simp [hb], ?_⟩
    intro e he'
    rcases List.mem_pair.mp he' with h | h <;> subst h <;> rfl

/-- C9: an invalid pattern makes the tick a non-fatal fail-safe — the loop
halts (frame cancelled) and progress is zeroed; for every input the resulting
progress lies in [0,1]; and a valid, non-boundary tick computes exactly the
clamped progress fraction. -/
theorem tick_failsafe_progress_bounds (pat : BreathPattern) (ts : TickState)
    (now : ℚ) :
    (isPatternValid pat = false →
      (loopTick pat ts now).1.progress = 0 ∧
      (loopTick pat ts now).1.running = false ∧
      (loopTick pat ts now).2 = []) ∧
    0 ≤ (loopTick pat ts now).1.progress ∧
    (loopTick pat ts now).1.progress ≤ 1 ∧
    (isPatternValid pat = true →
      (now - ts.startTime) / 1000 < pat.timings ts.phase →
      (loopTick pat ts now).1.progress
          = progressAt pat ts.phase ts.startTime now) := by
  rcases hval : isPatternValid pat with _ | _
  · refine ⟨fun _ => ?_, ?_, ?_, fun htrue => Bool.noConfusion htrue⟩ <;>
      simp [loopTick, hval]
  · refine ⟨fun hfalse => Bool.noConfusion hfalse, ?_, ?_, fun _ hlt => ?_⟩
    · rcases le_or_lt (pat.timings ts.phase) ((now - ts.startTime) / 1000) with he | hlt
      · rcases hn : nextPhaseSkipZero ts.phase pat with _ | next
        · simp [loopTick, hval, he, hn, progressAt_nonneg]
        · simp [loopTick, hval, he, hn]
      · simp [loopTick, hval, not_le.mpr hlt, progressAt_nonneg]
    · rcases le_or_lt (pat.timings ts.phase) ((now - ts.startTime) / 1000) with he | hlt
      · rcases hn : nextPhaseSkipZero ts.phase pat with _ | next
        · simp [loopTick, hval, he, hn, progressAt_le_one]
        · simp [loopTick, hval, he, hn]
      · simp [loopTick, hval, not_le.mpr hlt, progressAt_le_one]
    · simp [loopTick, hval, not_le.mpr hlt]

/-- C3 witness: a 15 s session on an empty history appends exactly the new
item. -/
theorem finishSession_history_spec_witness :
    (finishSession wState 16000 "w" "2025-10-11" "2025-10-10").history
        = [finishedItem wState 16000 "w"] := by
  have h := ((finishSession_history_spec wState 16000 "w" "2025-10-11"
      "2025-10-10").2.1 (by decide)).1
  rw [h]
  rfl

/-- C7: pausing at `tp` and resuming at `tr` shifts the phase clock forward by
the paused duration, so the progress fraction computed right after the resume
equals the one computed right before the pause (no jump), the elapsed-in-phase
right after the resume equals the elapsed-in-phase at the pause, and at any
later instant `t` the elapsed-in-phase has grown only by the active
(non-paused) time `t - tr`. -/
theorem pause_resume_progress (r : EngineRefs) (pat : BreathPattern)
    (ph : BreathPhase) (tp tr t : ℚ)
    (hst : 0 < r.startTime) (htp : 0 < tp) :
    progressAt pat ph
        (mainEffect (mainEffect r true true tp) true false tr).startTime tr
      = progressAt pat ph r.startTime tp ∧
    (tr - (mainEffect (mainEffect r true true tp) true false tr).startTime)
        / 1000
      = (tp - r.startTime) / 1000 ∧
    (t - (mainEffect (mainEffect r true true tp) true false tr).startTime)
        / 1000
      = (tp - r.startTime) / 1000 + (t - tr) / 1000 := by
  have h1 : mainEffect r true true tp
      = { r with pausedAt := tp, rafActive := false } := by
    simp [mainEffect]
  have h2 : (mainEffect (mainEffect r true true tp) true false tr).startTime
      = r.startTime + (tr - tp) := by
    rw [h1]
    simp [mainEffect, htp, hst]
  have harg : tr - (r.startTime + (tr - tp)) = tp - r.startTime := by ring
  refine ⟨?_, ?_, ?_⟩
  · rw [progressAt, progressAt, h2, harg]
  · rw [h2]
    ring
  · rw [h2]
    ring

/-- C8: after a suspension (hide at `th`), becoming visible at `tv` performs a
soft resume exactly when the session is active and not paused: the phase clock
restarts at `tv` and progress resets to 0 — for every hide time `th`, i.e.
regardless of the suspension length, the backgrounded time is discarded; in
every other case the refs are left exactly as the hide handler set them. -/
theorem soft_resume_spec (r : EngineRefs) (a p : Bool) (th tv : ℚ) :
    (a = true → p = false →
      (onVisVisible (onVisHidden r th) a p tv).startTime = tv ∧
      (onVisVisible (onVisHidden r th) a p tv).progress = 0 ∧
      (onVisVisible (onVisHidden r th) a p tv).wasHidden = false ∧
      (onVisVisible (onVisHidden r th) a p tv).rafActive = true) ∧
    ((a = false ∨ p = true) →
      onVisVisible (onVisHidden r th) a p tv = onVisHidden r th) := by
  constructor
  · intro ha hp
    subst ha
    subst hp
    simp [onVisVisible, onVisHidden]
  · rintro (ha | hp)
    · subst ha
      simp [onVisVisible]
    · subst hp
      simp [onVisVisible]

/-! ### Concrete fixtures for the witnesses -/

/-- A tick state in `exhale` with the clock at 0 (fixture). -/
def tsW : TickState :=
  { phase := .exhale, cycleCount := 0, startTime := 0, progress := 0,
    running := true }

/-- Engine refs of a running session started at 1000 ms (fixture). -/
def wRefs : EngineRefs :=
  { startTime := 1000, pausedAt := 0, progress := 0, wasHidden := false,
    rafActive := true }

/-- A caller-supplied garbage pattern with no positive phase (fixture). -/
def allZeroPattern : BreathPattern :=
  { id := .box, label := "zero", tag := "", description := "",
    timings := fun _ => 0, colorTheme := .neutral, recommendedCycles := none }

/-- C5 witness: on the 4-7-8 pattern, the tick at 9 s in `exhale` wraps into
`inhale` and bumps the cycle count from 0 to 1 with exactly one `incCycle`
event. -/
theorem cycle_increment_spec_witness :
    (loopTick (BREATHING_PATTERNS .fourSevenEight) tsW 9000).1.cycleCount
        = tsW.cycleCount + 1 ∧
    (loopTick (BREATHING_PATTERNS .fourSevenEight) tsW 9000).2.count
        Event.incCycle = 1 :=
  ((cycle_increment_spec initialBreathState .box 0 0 "w" "2025-10-11"
        "2025-10-10" (BREATHING_PATTERNS .fourSevenEight) tsW 9000
        BreathPhase.inhale).2.2.1 (by decide)
      (by norm_num [BREATHING_PATTERNS, tsW]) (by rfl)).1 rfl

/-- C6 witness: the same wrap tick emits the trace transition, incCycle,
phaseSet, cue — the phase change preceding the single cue. -/
theorem tick_event_order_witness :
    (loopTick (BREATHING_PATTERNS .fourSevenEight) tsW 9000).2.filter
        Event.isCue
      = [Event.cue BreathPhase.inhale
          ((BREATHING_PATTERNS .fourSevenEight).timings BreathPhase.inhale)] :=
  (tick_event_order (BREATHING_PATTERNS .fourSevenEight) tsW 9000
      BreathPhase.inhale (by decide)
      (by norm_num [BREATHING_PATTERNS, tsW]) (by rfl)).2.1

/-- C7 witness: pause at 5 s and resume at 9 s of a phase started at 1 s —
the progress fraction right after the resume equals the one right before the
pause. -/
theorem pause_resume_progress_witness :
    progressAt (BREATHING_PATTERNS .fourSevenEight) BreathPhase.inhale
        (mainEffect (mainEffect wRefs true true 5000) true false
          9000).startTime 9000
      = progressAt (BREATHING_PATTERNS .fourSevenEight) BreathPhase.inhale
          wRefs.startTime 5000 :=
  (pause_resume_progress wRefs (BREATHING_PATTERNS .fourSevenEight)
      BreathPhase.inhale 5000 9000 9500 (by norm_num [wRefs]) (by norm_num)).1

/-- C8 witness: hidden at 2 s, visible again at 99 s while active and not
paused — the clock restarts at 99 s with zero progress. -/
theorem soft_resume_spec_witness :
    (onVisVisible (onVisHidden wRefs 2000) true false 99000).startTime = 99000 ∧
    (onVisVisible (onVisHidden wRefs 2000) true false 99000).progress = 0 :=
  ⟨((soft_resume_spec wRefs true false 2000 99000).1 rfl rfl).1,
   ((soft_resume_spec wRefs true false 2000 99000).1 rfl rfl).2.1⟩

/-- C9 witness: on the all-zero pattern the tick zeroes progress and halts the
loop without emitting anything. -/
theorem tick_failsafe_progress_bounds_witness :
    (loopTick allZeroPattern tsW 9000).1.progress = 0 ∧
    (loopTick allZeroPattern tsW 9000).1.running = false ∧
    (loopTick allZeroPattern tsW 9000).2 = [] :=
  (tick_failsafe_progress_bounds allZeroPattern tsW 9000).1 (by decide)

end ZenB
